import Mathlib

/-!
Verification of the session-scoped chat memory layer of this repository.

The development shallowly embeds the client-side session cache
(`frontend/src/App.tsx`, second `App` definition, with its `sessionCache`
state and the operations `fetchHistories`, `handleSelectChat`,
`handleMessageSent`, `handleNewChat`), the legacy history loader
(`App.tsx`, first `App` definition, here `fetchHistoriesV1`), the chat
transcript component (`frontend/src/components/ChatContainer.tsx`, first
definition: `fetchChatHistory`, `handleSubmit`), the message-sending
context (`frontend/src/context/ChatContext.tsx`: `sendMessage`), and the
SQL write path of the schema file (tables `user_chat_history` and
`video_analysis_output` with their CHECK constraints).

Conventions of the embedding:
* JavaScript timestamps (`TIMESTAMP` columns / `new Date(x).getTime()`)
  are modelled as `Nat` (epoch milliseconds).
* Database `BIGINT` identity ids are `Nat`; UUID/session ids are `String`.
* `fetch` responses are passed in as an `Except Unit` value: `.error ()`
  models a rejected promise or a non-ok HTTP status (both reach the
  `catch` block), `.ok data` models a parsed JSON body.
* JavaScript object maps (`sessionCache`) are association lists that keep
  the object's key-insertion order; object spread `{...prev, ...next}` is
  `cacheMerge`.
* JavaScript string truthiness: the source guards `if (sessionId)`,
  `if (chatId)`, `if (chat?.session_id)` treat the empty string like
  `undefined`; the embedding tests `= ""` explicitly in those spots.
-/

/-- A row of `user_chat_history` (schema file) and, identically, an element
of the `/chat_history` JSON response (`ChatHistory` in
`frontend/src/types/index.ts`): `{id, user_id, session_id, message,
chat_type, TIMESTAMP}`.  The `vector(384)`, `last_updated` and `deleted_at`
columns play no role in the claims and are omitted from the row. -/
structure ChatHistoryRecord where
  id : Nat
  session_id : String
  user_id : String
  message : String
  chat_type : String
  timestamp : Nat
deriving DecidableEq, Repr

/-- An element of the `/video_analysis_history` response (`VideoHistory` in
`frontend/src/types/index.ts`). -/
structure VideoHistoryRecord where
  id : Nat
  upload_file_name : String
  analysis : String
  timestamp : Nat
deriving DecidableEq, Repr

/-- A row of `video_analysis_output` (schema file): adds the owning
`user_id` and the optional duration/format columns. -/
structure VideoRow where
  id : Nat
  user_id : String
  upload_file_name : String
  analysis : String
  video_duration : Option String
  video_format : Option String
  timestamp : Nat
deriving DecidableEq, Repr

/-- A UI transcript entry (`Message` in `frontend/src/types/index.ts`):
`{type: 'user' | 'bot' | 'error', content, timestamp?}` plus the
`sessionId` field some transforms attach.  `type` is kept as a `String`
because the source casts arbitrary `chat_type` strings into it. -/
structure Message where
  type : String
  content : String
  timestamp : Option Nat
  sessionId : Option String
deriving DecidableEq, Repr

/-- A sidebar chat (`Chat` in `frontend/src/types/index.ts`, with the
`session_id` field the second `App` adds):
`{id, title, messages, timestamp, session_id}`. -/
structure Chat where
  id : String
  title : String
  messages : List Message
  timestamp : Option Nat
  session_id : Option String
deriving DecidableEq, Repr

/-- A chat session as held by `ChatContext` (`ChatSession` in
`frontend/src/types/index.ts`, fields beyond `id`/`title` unused here). -/
structure ChatSessionT where
  id : String
  title : String
deriving DecidableEq, Repr

/-- The `sessionCache` state of the second `App`
(`{ [sessionId: string]: ChatHistory[] }`), as an association list in
key-insertion order. -/
def SessionCache : Type := List (String × List ChatHistoryRecord)

instance : DecidableEq SessionCache := by
  unfold SessionCache
  infer_instance

instance : Membership (String × List ChatHistoryRecord) SessionCache := by
  unfold SessionCache
  infer_instance

instance : Repr SessionCache := by
  unfold SessionCache
  infer_instance

/-- Property read `sessionCache[sessionId]` on the JS object. -/
def lookupEntry (c : SessionCache) (sid : String) : Option (List ChatHistoryRecord) :=
  (c.find? (fun p => p.1 == sid)).map (fun p => p.2)

/-- `Object.keys(sessionCache).length > 0` is the negation of this. -/
def cacheIsEmpty (c : SessionCache) : Bool :=
  match c with
  | [] => true
  | _ :: _ => false

/-- The per-key effect of object spread on an existing key: the value is
overwritten when the spread-in object also has the key. -/
def mergeFix (next : SessionCache) (p : String × List ChatHistoryRecord) :
    String × List ChatHistoryRecord :=
  match lookupEntry next p.1 with
  | some v => (p.1, v)
  | none => p

/-- Object spread `{...prev, ...next}`: keys of `prev` keep their position
with values overwritten by `next` where present; keys only in `next` are
appended in their order. -/
def cacheMerge (prev next : SessionCache) : SessionCache :=
  prev.map (mergeFix next) ++ next.filter (fun q => (lookupEntry prev q.1).isNone)

/-- Computed-key spread `{...prev, [sid]: v}` used by `handleSelectChat`. -/
def cacheInsert (c : SessionCache) (sid : String) (v : List ChatHistoryRecord) : SessionCache :=
  cacheMerge c [(sid, v)]

/-- `Object.values(sessionCache).flat()` from the second `fetchHistories`. -/
def flattenCache (c : SessionCache) : List ChatHistoryRecord :=
  (c.map (fun p => p.2)).flatten

/-- The grouping key `msg.session_id || 'default'` of the second
`fetchHistories`' `reduce`. -/
def groupKey (r : ChatHistoryRecord) : String :=
  if r.session_id = "" then "default" else r.session_id

/-- One step of the grouping `reduce`: `acc[sessionId].push(msg)` with
`acc[sessionId] = []` created on first sight.  Pushing appends at the end
of the existing group; a fresh key is appended at the end of the object. -/
def addToGroup (acc : SessionCache) (sid : String) (r : ChatHistoryRecord) : SessionCache :=
  match acc with
  | [] => [(sid, [r])]
  | (k, v) :: rest =>
      if k = sid then (k, v ++ [r]) :: rest
      else (k, v) :: addToGroup rest sid r

/-- `chatHistory.reduce(...)` grouping the fetched records by
`session_id || 'default'`, preserving response order inside each group. -/
def groupBySession (data : List ChatHistoryRecord) : SessionCache :=
  data.foldl (fun acc r => addToGroup acc (groupKey r) r) []

/-- JavaScript `String.prototype.trim()`: strip leading and trailing
whitespace (modelled over the character list so it evaluates in the
kernel). -/
def jsTrim (s : String) : String :=
  String.mk (((s.data.dropWhile Char.isWhitespace).reverse.dropWhile
    Char.isWhitespace).reverse)

/-- The comparator `(a, b) => new Date(a.TIMESTAMP).getTime() -
new Date(b.TIMESTAMP).getTime()` orders by timestamp alone. -/
def tsLE (a b : ChatHistoryRecord) : Prop := a.timestamp ≤ b.timestamp

instance : DecidableRel tsLE := fun a b => Nat.decLe a.timestamp b.timestamp

instance : IsTotal ChatHistoryRecord tsLE :=
  ⟨fun a b => Nat.le_total a.timestamp b.timestamp⟩

instance : IsTrans ChatHistoryRecord tsLE :=
  ⟨fun _ _ _ h h' => Nat.le_trans h h'⟩

/-- `[...data].sort((a, b) => new Date(a.TIMESTAMP) - new Date(b.TIMESTAMP))`:
a stable sort ascending by timestamp (ES2019 `Array.prototype.sort` is
stable), used by `fetchChatHistory` and by the second `fetchHistories`'
chat conversion. -/
def sortByTimestamp (data : List ChatHistoryRecord) : List ChatHistoryRecord :=
  List.insertionSort tsLE data

/-- The React state of the second `App` definition in
`frontend/src/App.tsx`: `chatHistory`, `videoHistory`, `chats`,
`sessionCache`, `error`, `currentChatId`. -/
structure AppState where
  chatHistory : List ChatHistoryRecord
  videoHistory : List VideoHistoryRecord
  chats : List Chat
  sessionCache : SessionCache
  error : Option String
  currentChatId : Option String
deriving DecidableEq, Repr

/-- Conversion of one cache group to a sidebar `Chat` in the second
`fetchHistories`: sort the group's messages ascending by timestamp, take
the title from the earliest message (`slice(0, 30) || 'Untitled Chat'`),
map `chat_type === 'text'` to `'user'`, and record the group key as
`session_id`. -/
def toChatV2 (sid : String) (msgs : List ChatHistoryRecord) : Chat :=
  let sorted := sortByTimestamp msgs
  { id := sid
    title :=
      match sorted.head? with
      | some m => if m.message.take 30 = "" then "Untitled Chat" else m.message.take 30
      | none => "Untitled Chat"
    messages := sorted.map (fun m =>
      { type := if m.chat_type = "text" then "user" else m.chat_type
        content := m.message
        timestamp := none
        sessionId := none })
    timestamp := (sorted.head?).map (fun m => m.timestamp)
    session_id := some sid }

/-- The network branch of the second `fetchHistories`: on failure the
`catch` sets the error and nothing else; on success the response is
grouped by session, spread into the cache, converted to `Chat`s, and the
raw response array becomes `chatHistory`.  The second component is the
request that was issued: `some target` where `target` is the
`session_id` query parameter (`none` = the unfiltered `/chat_history`). -/
def fetchPath (st : AppState) (target : Option String)
    (response : Except Unit (List ChatHistoryRecord)) :
    AppState × Option (Option String) :=
  match response with
  | .error _ => ({ st with error := some "Failed to load chat history" }, some target)
  | .ok data =>
      let grouped := groupBySession data
      ({ st with
          error := none
          sessionCache := cacheMerge st.sessionCache grouped
          chats := grouped.map (fun p => toChatV2 p.1 p.2)
          chatHistory := data },
        some target)

/-- The second `fetchHistories` when called with no (or an empty, hence
falsy) session id: with a non-empty cache it serves
`Object.values(sessionCache).flat()` without a request; with an empty
cache it fetches the unfiltered `/chat_history`. -/
def noSessionPath (st : AppState)
    (response : Except Unit (List ChatHistoryRecord)) :
    AppState × Option (Option String) :=
  if cacheIsEmpty st.sessionCache then fetchPath st none response
  else ({ st with error := none, chatHistory := flattenCache st.sessionCache }, none)

/-- `fetchHistories(sessionId?)` of the second `App`: cached session ids
are served from `sessionCache` with no request; otherwise the session's
(or the unfiltered) history is fetched. -/
def fetchHistories (st : AppState) (sessionId : Option String)
    (response : Except Unit (List ChatHistoryRecord)) :
    AppState × Option (Option String) :=
  match sessionId with
  | none => noSessionPath st response
  | some sid =>
      if sid = "" then noSessionPath st response
      else
        match lookupEntry st.sessionCache sid with
        | some cached => ({ st with error := none, chatHistory := cached }, none)
        | none => fetchPath st (some sid) response

/-- `handleSelectChat(chatId)` of the second `App`: looks the chat up in
`chats`; with a truthy `session_id` it serves the cache if present,
otherwise fetches `/chat_history?session_id=...` and stores the result
under that key; without a session it just selects the chat and clears the
visible history. -/
def handleSelectChat (st : AppState) (chatId : String)
    (response : Except Unit (List ChatHistoryRecord)) :
    AppState × Option (Option String) :=
  match st.chats.find? (fun c => c.id == chatId) with
  | some chat =>
      match chat.session_id with
      | some sid =>
          if sid = "" then
            ({ st with error := none, currentChatId := some chatId, chatHistory := [] }, none)
          else
            match lookupEntry st.sessionCache sid with
            | some cached =>
                ({ st with
                    error := none
                    currentChatId := some chatId
                    chatHistory := cached }, none)
            | none =>
                match response with
                | .ok msgs =>
                    ({ st with
                        error := none
                        currentChatId := some chatId
                        sessionCache := cacheInsert st.sessionCache sid msgs
                        chatHistory := msgs }, some (some sid))
                | .error _ =>
                    ({ st with
                        error := some "Failed to load chat messages. Please try again."
                        currentChatId := some chatId }, some (some sid))
      | none =>
          ({ st with error := none, currentChatId := some chatId, chatHistory := [] }, none)
  | none =>
      ({ st with error := none, currentChatId := some chatId, chatHistory := [] }, none)

/-- The per-chat update `handleMessageSent` maps over `chats`: replace the
matching chat's messages (normalising `type === 'text'` to `'user'`) and
retitle it from the first message (`slice(0, 30) || chat.title`). -/
def updateChatEntry (messages : List Message) (chatId : String) (c : Chat) : Chat :=
  if c.id == chatId then
    { c with
        messages := messages.map (fun m =>
          if m.type = "text" then { m with type := "user" } else m)
        title :=
          match messages.head? with
          | some m => if m.content.take 30 = "" then c.title else m.content.take 30
          | none => c.title }
  else c

/-- `handleMessageSent(messages, chatId)` of the second `App`: looks the
chat up in the pre-update `chats`, rewrites the `chats` entry, then calls
`fetchHistories(chat?.session_id)`.  The session cache itself is never
written here. -/
def handleMessageSent (st : AppState) (messages : List Message) (chatId : String)
    (response : Except Unit (List ChatHistoryRecord)) :
    AppState × Option (Option String) :=
  let chatFound := st.chats.find? (fun c => c.id == chatId)
  fetchHistories
    { st with chats := st.chats.map (updateChatEntry messages chatId) }
    (chatFound.bind (fun c => c.session_id))
    response

/-- `handleNewChat` of the second `App`: prepends a local chat with id
`Date.now().toString()`, no messages and no `session_id`. -/
def handleNewChat (st : AppState) (now : Nat) : AppState × Option (Option String) :=
  ({ st with
      chats :=
        { id := toString now
          title := "New Chat " ++ toString (st.chats.length + 1)
          messages := []
          timestamp := some now
          session_id := none } :: st.chats
      currentChatId := some (toString now) },
    none)

/-- The React state of the first (legacy) `App` definition in
`frontend/src/App.tsx`: no session cache, only the flat history lists. -/
structure AppStateV1 where
  chatHistory : List ChatHistoryRecord
  videoHistory : List VideoHistoryRecord
  chats : List Chat
  error : Option String
  currentChatId : Option String
deriving DecidableEq, Repr

/-- The legacy `fetchHistories`' per-record chat conversion: title from the
record's own message (`> 30` chars gets sliced plus `'...'`, empty falls
back to `'Untitled Chat'`), a single-message transcript, the record's
timestamp, and no session id (the legacy `Chat` has none). -/
def toChatV1 (r : ChatHistoryRecord) : Chat :=
  { id := toString r.id
    title :=
      if r.message.length > 30 then r.message.take 30 ++ "..."
      else if r.message = "" then "Untitled Chat" else r.message
    messages := [{ type := if r.chat_type = "" then "user" else r.chat_type
                   content := r.message
                   timestamp := none
                   sessionId := none }]
    timestamp := some r.timestamp
    session_id := none }

/-- The legacy comparator `(a, b) => new Date(b.timestamp) -
new Date(a.timestamp)`: newest chat first.  Legacy chats always carry a
timestamp, so the `getD` default is never consulted on that path. -/
def chatDescLE (a b : Chat) : Prop := b.timestamp.getD 0 ≤ a.timestamp.getD 0

instance : DecidableRel chatDescLE :=
  fun a b => Nat.decLe (b.timestamp.getD 0) (a.timestamp.getD 0)

instance : IsTotal Chat chatDescLE :=
  ⟨fun a b => Nat.le_total (b.timestamp.getD 0) (a.timestamp.getD 0)⟩

instance : IsTrans Chat chatDescLE :=
  ⟨fun _ _ _ h h' => Nat.le_trans h' h⟩

/-- `convertedChats.sort(...)` of the legacy `fetchHistories`. -/
def sortChatsDesc (cs : List Chat) : List Chat :=
  List.insertionSort chatDescLE cs

/-- `if (!currentChatId && convertedChats.length > 0)
setCurrentChatId(convertedChats[0].id)` — `null` and `''` are both falsy. -/
def updateCurrentChatId (cur : Option String) (converted : List Chat) : Option String :=
  if cur = none ∨ cur = some "" then
    match converted.head? with
    | some c => some c.id
    | none => cur
  else cur

/-- The legacy `fetchHistories` (first `App` definition, no arguments, no
cache).  On success both histories are replaced and the chats rebuilt; the
sanitising `map`s only substitute fallbacks for missing JSON fields and
are the identity on well-typed records.  On any failure the `catch` sets
the error message and then resets `chatHistory`, `videoHistory` and
`chats` to empty arrays ("Ensure clean state even on error"). -/
def fetchHistoriesV1 (st : AppStateV1)
    (response : Except Unit (List ChatHistoryRecord × List VideoHistoryRecord)) :
    AppStateV1 :=
  match response with
  | .error _ =>
      { st with
          error := some "Failed to fetch history data"
          chatHistory := []
          videoHistory := []
          chats := [] }
  | .ok (chatData, videoData) =>
      let converted := sortChatsDesc (chatData.map toChatV1)
      { st with
          error := none
          chatHistory := chatData
          videoHistory := videoData
          chats := converted
          currentChatId := updateCurrentChatId st.currentChatId converted }

/-- `fetchChatHistory` of the first `ChatContainer` definition
(`frontend/src/components/ChatContainer.tsx`).  Result: the new
`chatMessages`, the new `error`, and whether a request was issued.  A
falsy `chatId` clears the transcript without fetching; a successful fetch
replaces the transcript with the timestamp-sorted, transformed response;
a failure keeps the transcript and sets the error. -/
def fetchChatHistory (chatId : Option String) (chatMessages : List Message)
    (prevError : Option String)
    (response : Except Unit (List ChatHistoryRecord)) :
    List Message × Option String × Bool :=
  match chatId with
  | none => ([], prevError, false)
  | some cid =>
      if cid = "" then ([], prevError, false)
      else
        match response with
        | .ok data =>
            ((sortByTimestamp data).map (fun m =>
                { type := if m.chat_type = "user" then "user" else "bot"
                  content := m.message
                  timestamp := some m.timestamp
                  sessionId := some (if m.session_id = "" then "default" else m.session_id) }),
              none, true)
        | .error _ =>
            (chatMessages, some "Could not load chat history. Please try again later.", true)

/-- Result of the first `ChatContainer`'s `handleSubmit`: the new
transcript, the new error, whether `/send_message` was posted, and the
`session_id` field of the posted form data (absent when `chatId` is
falsy). -/
structure SubmitOutcome where
  messages : List Message
  error : Option String
  didSend : Bool
  sentSessionId : Option String
deriving DecidableEq, Repr

/-- `handleSubmit` of the first `ChatContainer` definition.  The guard
returns untouched state when the trimmed message is empty with no files,
or while loading.  On success the transcript gains the user message and
the bot reply; on failure it gains the user message and an error entry,
and the error state is set. -/
def handleSubmit (message : String) (filesCount : Nat) (isLoading : Bool)
    (chatId : Option String) (chatMessages : List Message)
    (prevError : Option String) (response : Except Unit String) : SubmitOutcome :=
  if (jsTrim message == "" && filesCount == 0) || isLoading then
    { messages := chatMessages, error := prevError, didSend := false, sentSessionId := none }
  else
    let sid :=
      match chatId with
      | some cid => if cid = "" then none else some cid
      | none => none
    match response with
    | .ok reply =>
        { messages := chatMessages ++
            [{ type := "user", content := jsTrim message, timestamp := none, sessionId := none },
             { type := "bot", content := reply, timestamp := none, sessionId := none }]
          error := none
          didSend := true
          sentSessionId := sid }
    | .error _ =>
        { messages := chatMessages ++
            [{ type := "user", content := jsTrim message, timestamp := none, sessionId := none },
             { type := "error", content := "Failed to send message. Please try again."
               timestamp := none, sessionId := none }]
          error := some "Failed to send message. Please try again."
          didSend := true
          sentSessionId := sid }

/-- Result of `ChatContext.sendMessage`: the new `messages` state, the new
`error`, and whether `/send_message` was posted at all. -/
structure SendOutcome where
  messages : List Message
  error : Option String
  didSend : Bool
deriving DecidableEq, Repr

/-- `sendMessage` of `frontend/src/context/ChatContext.tsx`.  With no
current session (or a falsy session id) it sets
`'No active chat session'` and returns without posting.  Otherwise the
raw user message is appended optimistically when its trim is non-empty;
a truthy `data.response` appends a bot entry; a failure appends an error
entry and sets the error. -/
def sendMessage (currentSession : Option ChatSessionT) (userMessage : String)
    (prev : List Message) (response : Except Unit String) : SendOutcome :=
  match currentSession with
  | none => { messages := prev, error := some "No active chat session", didSend := false }
  | some s =>
      if s.id = "" then
        { messages := prev, error := some "No active chat session", didSend := false }
      else
        let withUser :=
          if jsTrim userMessage = "" then prev
          else prev ++
            [{ type := "user", content := userMessage, timestamp := none, sessionId := none }]
        match response with
        | .ok reply =>
            { messages :=
                if reply = "" then withUser
                else withUser ++
                  [{ type := "bot", content := reply, timestamp := none, sessionId := none }]
              error := none
              didSend := true }
        | .error _ =>
            { messages := withUser ++
                [{ type := "error", content := "Failed to send message. Please try again."
                   timestamp := none, sessionId := none }]
              error := some "Failed to send message"
              didSend := true }

/-- The identity column of `user_chat_history`
(`BIGINT GENERATED ALWAYS AS IDENTITY`): strictly above every id already
in the table. -/
def nextChatId (table : List ChatHistoryRecord) : Nat :=
  table.foldl (fun m r => max m r.id) 0 + 1

/-- `INSERT INTO user_chat_history`: the `CHECK (LENGTH(message) > 0)`
constraint (with `message TEXT NOT NULL`) rejects an empty message, so no
row is added; otherwise the row is appended with a fresh identity id. -/
def insert_user_chat_history (table : List ChatHistoryRecord)
    (session_id user_id message chat_type : String) (ts : Nat) :
    Except String (List ChatHistoryRecord) :=
  if message.length > 0 then
    .ok (table ++
      [{ id := nextChatId table, session_id := session_id, user_id := user_id,
         message := message, chat_type := chat_type, timestamp := ts }])
  else
    .error "ValidationError: new row violates check constraint LENGTH(message) > 0"

/-- The identity column of `video_analysis_output`. -/
def nextVideoId (table : List VideoRow) : Nat :=
  table.foldl (fun m r => max m r.id) 0 + 1

/-- `INSERT INTO video_analysis_output`: the
`CHECK (LENGTH(upload_file_name) > 0)` constraint rejects an empty file
name, so no row is added. -/
def insert_video_analysis_output (table : List VideoRow)
    (user_id upload_file_name analysis : String)
    (video_duration video_format : Option String) (ts : Nat) :
    Except String (List VideoRow) :=
  if upload_file_name.length > 0 then
    .ok (table ++
      [{ id := nextVideoId table, user_id := user_id,
         upload_file_name := upload_file_name, analysis := analysis,
         video_duration := video_duration, video_format := video_format,
         timestamp := ts }])
  else
    .error "ValidationError: new row violates check constraint LENGTH(upload_file_name) > 0"

/-- Shared state seen by concurrent callers of the second
`fetchHistories`: the session cache and a count of `/chat_history`
requests issued.  The component state holds no in-flight flag — the
source defines none. -/
structure FlightState where
  sessionCache : SessionCache
  fetches : Nat
deriving Repr

/-- The synchronous prefix of one `fetchHistories(sessionId)` call, up to
its `await fetch(...)`: consult `sessionCache[sessionId]`; on a miss,
issue the request.  Nothing is written to shared state before the await,
and no in-flight marker exists to be checked or set. -/
def startCall (fs : FlightState) (sid : String) : FlightState :=
  match lookupEntry fs.sessionCache sid with
  | some _ => fs
  | none => { fs with fetches := fs.fetches + 1 }

/-- `n` concurrent callers whose synchronous prefixes all run before any
response arrives (so no completion handler has updated the cache yet). -/
def runStarts (fs : FlightState) (sid : String) : Nat → FlightState
  | 0 => fs
  | n + 1 => runStarts (startCall fs sid) sid n

/-- One user action handled by the second `App`, together with the parsed
response its handler would receive if it issues a request. -/
inductive AppOp where
  | fetchHist (sessionId : Option String) (response : Except Unit (List ChatHistoryRecord))
  | selectChat (chatId : String) (response : Except Unit (List ChatHistoryRecord))
  | messageSent (messages : List Message) (chatId : String)
      (response : Except Unit (List ChatHistoryRecord))
  | newChat (now : Nat)
deriving Repr

/-- Dispatch one action to its handler; the second component is the
`/chat_history` request the handler issued, if any (see `fetchPath`). -/
def applyOp (st : AppState) (op : AppOp) : AppState × Option (Option String) :=
  match op with
  | .fetchHist sid resp => fetchHistories st sid resp
  | .selectChat cid resp => handleSelectChat st cid resp
  | .messageSent msgs cid resp => handleMessageSent st msgs cid resp
  | .newChat now => handleNewChat st now

/-- Run a sequence of user actions. -/
def applyOps (st : AppState) (ops : List AppOp) : AppState :=
  match ops with
  | [] => st
  | op :: rest => applyOps (applyOp st op).1 rest

/-- Whether an issued request is a request for session `s`'s history: the
unfiltered `/chat_history` fetches every session's history, the filtered
one only its query parameter's. -/
def requestsSession (req : Option (Option String)) (s : String) : Bool :=
  match req with
  | none => false
  | some none => true
  | some (some sid) => sid == s

/-- No action in the sequence issues a request for session `s`'s
history. -/
def noFetchFor (st : AppState) (ops : List AppOp) (s : String) : Bool :=
  match ops with
  | [] => true
  | op :: rest =>
      !(requestsSession (applyOp st op).2 s) && noFetchFor (applyOp st op).1 rest s

/-- The data of a successful response. -/
def okData (resp : Except Unit (List ChatHistoryRecord)) : List ChatHistoryRecord :=
  match resp with
  | .ok d => d
  | .error _ => []

/-- The server scopes `/chat_history?session_id=...` responses: an
action's successful response contains no record that groups under session
`s` (vacuously true for actions that carry no grouped merge). -/
def respNoRecordsFor (op : AppOp) (s : String) : Bool :=
  match op with
  | .fetchHist _ resp => (okData resp).all (fun r => groupKey r != s)
  | .messageSent _ _ resp => (okData resp).all (fun r => groupKey r != s)
  | .selectChat _ _ => true
  | .newChat _ => true

theorem mergeFix_fst (next : SessionCache) (p : String × List ChatHistoryRecord) :
    (mergeFix next p).1 = p.1 := by
  unfold mergeFix
  cases lookupEntry next p.1 <;> rfl

theorem lookupEntry_cons (k : String) (v : List ChatHistoryRecord)
    (c : SessionCache) (s : String) :
    lookupEntry ((k, v) :: c) s = if k = s then some v else lookupEntry c s := by
  by_cases h : k = s <;> simp [lookupEntry, List.find?_cons, h]

theorem cacheIsEmpty_false_of_lookup {c : SessionCache} {s : String}
    {e : List ChatHistoryRecord} (h : lookupEntry c s = some e) :
    cacheIsEmpty c = false := by
  match c with
  | [] => simp [lookupEntry, List.find?] at h
  | _ :: _ => rfl

theorem lookupEntry_cacheMerge_of_none {prev next : SessionCache} {s : String}
    {e : List ChatHistoryRecord}
    (hp : lookupEntry prev s = some e) (hn : lookupEntry next s = none) :
    lookupEntry (cacheMerge prev next) s = some e := by
  unfold lookupEntry at hp
  rcases Option.map_eq_some'.mp hp with ⟨q, hq, hq2⟩
  have hkey : q.1 = s := by simpa using List.find?_some hq
  have hcomp : ((fun p : String × List ChatHistoryRecord => p.1 == s) ∘ mergeFix next)
      = fun p : String × List ChatHistoryRecord => p.1 == s := by
    funext p
    simp [Function.comp, mergeFix_fst]
  have hfq : mergeFix next q = q := by
    unfold mergeFix
    rw [hkey, hn]
  unfold lookupEntry cacheMerge
  rw [List.find?_append, List.find?_map, hcomp, hq]
  simp [hfq, hq2]

theorem lookupEntry_addToGroup_of_ne {acc : SessionCache} {s k : String}
    (r : ChatHistoryRecord) (hk : k ≠ s) (h : lookupEntry acc s = none) :
    lookupEntry (addToGroup acc k r) s = none := by
  induction acc with
  | nil =>
      have hks : (k == s) = false := beq_eq_false_iff_ne.mpr hk
      simp [addToGroup, lookupEntry, List.find?, hks]
  | cons hd tl ih =>
      obtain ⟨k', v⟩ := hd
      rw [lookupEntry_cons] at h
      by_cases hks : k' = s
      · simp [hks] at h
      · rw [if_neg hks] at h
        unfold addToGroup
        by_cases hkk : k' = k
        · rw [if_pos hkk, lookupEntry_cons, if_neg hks]
          exact h
        · rw [if_neg hkk, lookupEntry_cons, if_neg hks]
          exact ih h

theorem foldl_addToGroup_none {s : String} :
    ∀ (data : List ChatHistoryRecord) (acc : SessionCache),
      (∀ r ∈ data, groupKey r ≠ s) → lookupEntry acc s = none →
      lookupEntry (data.foldl (fun a r => addToGroup a (groupKey r) r) acc) s = none
  | [], _, _, ha => ha
  | r :: t, _, h, ha =>
      foldl_addToGroup_none t _ (fun x hx => h x (List.mem_cons_of_mem _ hx))
        (lookupEntry_addToGroup_of_ne r (h r (List.mem_cons_self _ _)) ha)

theorem lookupEntry_groupBySession_none {data : List ChatHistoryRecord} {s : String}
    (h : ∀ r ∈ data, groupKey r ≠ s) :
    lookupEntry (groupBySession data) s = none :=
  foldl_addToGroup_none data [] h rfl

theorem noSessionPath_of_cached {st : AppState} {s : String} {e : List ChatHistoryRecord}
    (resp : Except Unit (List ChatHistoryRecord))
    (hc : lookupEntry st.sessionCache s = some e) :
    noSessionPath st resp
      = ({ st with error := none, chatHistory := flattenCache st.sessionCache }, none) := by
  unfold noSessionPath
  rw [cacheIsEmpty_false_of_lookup hc]
  simp

theorem fetchPath_preserves_cached (st : AppState) (sid : String)
    (resp : Except Unit (List ChatHistoryRecord)) (s : String) (e : List ChatHistoryRecord)
    (hc : lookupEntry st.sessionCache s = some e)
    (hf : ∀ r ∈ okData resp, groupKey r ≠ s)
    (hne : sid ≠ s) :
    lookupEntry (fetchPath st (some sid) resp).1.sessionCache s = some e ∧
      requestsSession (fetchPath st (some sid) resp).2 s = false := by
  cases resp with
  | error u =>
      refine ⟨by simpa [fetchPath] using hc, ?_⟩
      simp [fetchPath, requestsSession, hne]
  | ok data =>
      refine ⟨?_, by simp [fetchPath, requestsSession, hne]⟩
      simp only [fetchPath]
      exact lookupEntry_cacheMerge_of_none hc
        (lookupEntry_groupBySession_none (by simpa [okData] using hf))

theorem fetchHistories_preserves_cached (st : AppState) (sid : Option String)
    (resp : Except Unit (List ChatHistoryRecord)) (s : String) (e : List ChatHistoryRecord)
    (hc : lookupEntry st.sessionCache s = some e)
    (hf : ∀ r ∈ okData resp, groupKey r ≠ s) :
    lookupEntry (fetchHistories st sid resp).1.sessionCache s = some e ∧
      requestsSession (fetchHistories st sid resp).2 s = false := by
  cases sid with
  | none =>
      unfold fetchHistories
      rw [noSessionPath_of_cached resp hc]
      exact ⟨hc, rfl⟩
  | some sid' =>
      by_cases h0 : sid' = ""
      · simp only [fetchHistories]
        rw [if_pos h0, noSessionPath_of_cached resp hc]
        exact ⟨hc, rfl⟩
      · simp only [fetchHistories]
        rw [if_neg h0]
        cases hl : lookupEntry st.sessionCache sid' with
        | some cached => exact ⟨hc, rfl⟩
        | none =>
            have hne : sid' ≠ s := by
              intro hss
              rw [hss, hc] at hl
              cases hl
            exact fetchPath_preserves_cached st sid' resp s e hc hf hne

theorem handleSelectChat_preserves_cached (st : AppState) (cid : String)
    (resp : Except Unit (List ChatHistoryRecord)) (s : String) (e : List ChatHistoryRecord)
    (hc : lookupEntry st.sessionCache s = some e) :
    lookupEntry (handleSelectChat st cid resp).1.sessionCache s = some e ∧
      requestsSession (handleSelectChat st cid resp).2 s = false := by
  unfold handleSelectChat
  split
  · split
    · split
      · exact ⟨hc, rfl⟩
      · split
        · exact ⟨hc, rfl⟩
        · next sid hseq hne0 hopt hl =>
            have hne : sid ≠ s := by
              intro hss
              rw [hss, hc] at hl
              cases hl
            have hreq : (sid == s) = false := beq_eq_false_iff_ne.mpr hne
            split
            · refine ⟨?_, by simp [requestsSession, hreq]⟩
              show lookupEntry (cacheInsert st.sessionCache sid _) s = some e
              unfold cacheInsert
              refine lookupEntry_cacheMerge_of_none hc ?_
              rw [lookupEntry_cons, if_neg hne]
              rfl
            · exact ⟨hc, by simp [requestsSession, hreq]⟩
    · exact ⟨hc, rfl⟩
  · exact ⟨hc, rfl⟩

theorem applyOp_preserves_cached (st : AppState) (op : AppOp) (s : String)
    (e : List ChatHistoryRecord)
    (hc : lookupEntry st.sessionCache s = some e)
    (hf : respNoRecordsFor op s = true) :
    lookupEntry (applyOp st op).1.sessionCache s = some e ∧
      requestsSession (applyOp st op).2 s = false := by
  cases op with
  | fetchHist sid resp =>
      refine fetchHistories_preserves_cached st sid resp s e hc ?_
      intro r hr
      have hall : ∀ x ∈ okData resp, (groupKey x != s) = true := List.all_eq_true.mp hf
      simpa using hall r hr
  | selectChat cid resp =>
      exact handleSelectChat_preserves_cached st cid resp s e hc
  | messageSent msgs cid resp =>
      show lookupEntry (handleMessageSent st msgs cid resp).1.sessionCache s = some e ∧ _
      unfold handleMessageSent
      refine fetchHistories_preserves_cached _ _ resp s e hc ?_
      intro r hr
      have hall : ∀ x ∈ okData resp, (groupKey x != s) = true := List.all_eq_true.mp hf
      simpa using hall r hr
  | newChat now => exact ⟨hc, rfl⟩

/-- C10 core: once `sessionCache` holds an entry for a session, no later
user action issues a request for that session's history, and the entry
survives every action (given that filtered responses are scoped by
the server to their requested session). -/
theorem cached_session_entry_persists :
    ∀ (ops : List AppOp) (st : AppState) (s : String) (e : List ChatHistoryRecord),
      lookupEntry st.sessionCache s = some e →
      (∀ op ∈ ops, respNoRecordsFor op s = true) →
      lookupEntry (applyOps st ops).sessionCache s = some e ∧
        noFetchFor st ops s = true
  | [], _, _, _, hc, _ => ⟨hc, rfl⟩
  | op :: rest, st, s, e, hc, hf => by
      obtain ⟨h1, h2⟩ := applyOp_preserves_cached st op s e hc (hf op (List.mem_cons_self _ _))
      obtain ⟨h3, h4⟩ :=
        cached_session_entry_persists rest (applyOp st op).1 s e h1
          (fun o ho => hf o (List.mem_cons_of_mem _ ho))
      refine ⟨h3, ?_⟩
      unfold noFetchFor
      rw [h2, h4]
      rfl

/-- C3: for every session id with a cache entry (no entry is ever marked
stale, so none is invalidated), both history reads — `fetchHistories` with
that session id and `handleSelectChat` of a chat bound to it — return the
cached sequence at once and issue no request. -/
theorem cached_read_returns_cache_no_fetch (st : AppState) (sid : String)
    (cached : List ChatHistoryRecord) (resp resp' : Except Unit (List ChatHistoryRecord))
    (hsid : sid ≠ "") (hc : lookupEntry st.sessionCache sid = some cached) :
    fetchHistories st (some sid) resp
        = ({ st with error := none, chatHistory := cached }, none)
    ∧ ∀ (chatId : String) (chat : Chat),
        st.chats.find? (fun c => c.id == chatId) = some chat →
        chat.session_id = some sid →
        handleSelectChat st chatId resp'
          = ({ st with
                error := none
                currentChatId := some chatId
                chatHistory := cached }, none) := by
  constructor
  · simp only [fetchHistories, if_neg hsid, hc]
  · intro chatId chat hfind hs
    simp only [handleSelectChat, hfind, hs, if_neg hsid, hc]

def w3Record : ChatHistoryRecord :=
  { id := 1, session_id := "s", user_id := "u", message := "hello",
    chat_type := "user", timestamp := 100 }

def w3Chat : Chat :=
  { id := "c1", title := "t", messages := [], timestamp := some 100, session_id := some "s" }

def w3State : AppState :=
  { chatHistory := [], videoHistory := [], chats := [w3Chat],
    sessionCache := [("s", [w3Record])], error := none, currentChatId := none }

theorem cached_read_returns_cache_no_fetch_witness :
    ("s" ≠ "" ∧ lookupEntry w3State.sessionCache "s" = some [w3Record])
    ∧ (fetchHistories w3State (some "s") (.error ())
        = ({ w3State with error := none, chatHistory := [w3Record] }, none)
      ∧ ∀ (chatId : String) (chat : Chat),
          w3State.chats.find? (fun c => c.id == chatId) = some chat →
          chat.session_id = some "s" →
          handleSelectChat w3State chatId (.error ())
            = ({ w3State with
                  error := none
                  currentChatId := some chatId
                  chatHistory := [w3Record] }, none)) :=
  ⟨⟨by decide, by decide⟩,
    cached_read_returns_cache_no_fetch w3State "s" [w3Record] (.error ()) (.error ())
      (by decide) (by decide)⟩

/-- C5 counterexample: with no cache entry for the session, two concurrent
`fetchHistories` calls (both synchronous prefixes running before any
response) issue two `/chat_history` requests, not one — there is no
in-flight flag to collapse them. -/
theorem two_concurrent_fetches_counterexample :
    (runStarts { sessionCache := [], fetches := 0 } "s1" 2).fetches ≠ 1 := by
  decide

/-- C5 amended: `n` concurrent `getOrFetch`-style calls on a cache miss
issue `n` underlying requests (one per caller) and leave the cache alone
until a response lands; nothing single-flights them. -/
theorem concurrent_calls_each_fetch (fs : FlightState) (sid : String) (n : Nat)
    (h : lookupEntry fs.sessionCache sid = none) :
    (runStarts fs sid n).fetches = fs.fetches + n ∧
      (runStarts fs sid n).sessionCache = fs.sessionCache := by
  induction n generalizing fs with
  | zero => exact ⟨rfl, rfl⟩
  | succ k ih =>
      have hstart : startCall fs sid = { fs with fetches := fs.fetches + 1 } := by
        unfold startCall
        rw [h]
      obtain ⟨h1, h2⟩ := ih { fs with fetches := fs.fetches + 1 } h
      constructor
      · show (runStarts (startCall fs sid) sid k).fetches = fs.fetches + (k + 1)
        rw [hstart, h1]
        show fs.fetches + 1 + k = fs.fetches + (k + 1)
        omega
      · show (runStarts (startCall fs sid) sid k).sessionCache = fs.sessionCache
        rw [hstart, h2]

theorem concurrent_calls_each_fetch_witness :
    lookupEntry ({ sessionCache := [], fetches := 0 } : FlightState).sessionCache "s1" = none
    ∧ ((runStarts { sessionCache := [], fetches := 0 } "s1" 3).fetches = 0 + 3 ∧
        (runStarts { sessionCache := [], fetches := 0 } "s1" 3).sessionCache = []) :=
  ⟨rfl, concurrent_calls_each_fetch { sessionCache := [], fetches := 0 } "s1" 3 rfl⟩

/-- C10: once `sessionCache` holds an entry for session `s`, any sequence
of user actions (history loads, chat selections, sends, new chats, with
filtered responses scoped to their own session) leaves that entry exactly
as it is and never issues another request for `s`'s history — there is no
invalidation, so server-side changes are never reflected. -/
theorem cached_session_never_refetched (st : AppState) (ops : List AppOp) (s : String)
    (e : List ChatHistoryRecord)
    (hc : lookupEntry st.sessionCache s = some e)
    (hf : ∀ op ∈ ops, respNoRecordsFor op s = true) :
    lookupEntry (applyOps st ops).sessionCache s = some e ∧
      noFetchFor st ops s = true :=
  cached_session_entry_persists ops st s e hc hf

def w10Ops : List AppOp :=
  [AppOp.fetchHist (some "t")
      (.ok [{ id := 2, session_id := "t", user_id := "u", message := "hi",
              chat_type := "user", timestamp := 200 }]),
   AppOp.selectChat "c9" (.error ()),
   AppOp.newChat 42,
   AppOp.messageSent [] "c1" (.error ()),
   AppOp.fetchHist (some "s") (.error ())]

theorem cached_session_never_refetched_witness :
    (lookupEntry w3State.sessionCache "s" = some [w3Record]
      ∧ ∀ op ∈ w10Ops, respNoRecordsFor op "s" = true)
    ∧ (lookupEntry (applyOps w3State w10Ops).sessionCache "s" = some [w3Record]
      ∧ noFetchFor w3State w10Ops "s" = true) :=
  ⟨⟨by decide, by decide⟩,
    cached_session_never_refetched w3State w10Ops "s" [w3Record] (by decide) (by decide)⟩

/-- The spec's ordering key on records: non-decreasing by
`(created_at, id)` lexicographically. -/
def ordKeyLE (a b : ChatHistoryRecord) : Prop :=
  a.timestamp < b.timestamp ∨ (a.timestamp = b.timestamp ∧ a.id ≤ b.id)

instance : DecidableRel ordKeyLE := fun a b => by
  unfold ordKeyLE
  infer_instance

def c2r1 : ChatHistoryRecord :=
  { id := 1, session_id := "s", user_id := "u", message := "m1",
    chat_type := "user", timestamp := 1 }

def c2r2 : ChatHistoryRecord :=
  { id := 2, session_id := "s", user_id := "u", message := "m2",
    chat_type := "user", timestamp := 2 }

def c2State0 : AppState :=
  { chatHistory := [], videoHistory := [], chats := [],
    sessionCache := [], error := none, currentChatId := none }

/-- C2 counterexample: a fetch whose response arrives out of order leaves
the session's cache entry in response order — `[c2r2, c2r1]`, which is
decreasing — because the grouping `reduce` never sorts what it stores. -/
theorem fetch_cache_entry_unsorted_counterexample :
    lookupEntry (fetchHistories c2State0 none (.ok [c2r2, c2r1])).1.sessionCache "s"
      = some [c2r2, c2r1]
    ∧ ¬ List.Pairwise ordKeyLE [c2r2, c2r1] := by
  constructor
  · decide
  · intro h
    have hle := (List.pairwise_cons.mp h).1 c2r1 (by simp)
    rcases hle with h1 | ⟨h2, _⟩
    · exact absurd h1 (by decide)
    · exact absurd h2 (by decide)

/-- C2 amended: the only sort the code performs (`fetchChatHistory` and the
chat conversion of the second `fetchHistories`, both `sortByTimestamp`)
orders by `TIMESTAMP` alone — the result is non-decreasing by
`created_at`, a permutation of the input, with `created_at` ties left in
input order rather than broken by `id`; the cache entry itself stores the
un-sorted response order. -/
theorem sortByTimestamp_sorted_by_timestamp (l : List ChatHistoryRecord) :
    List.Pairwise (fun a b => a.timestamp ≤ b.timestamp) (sortByTimestamp l)
    ∧ (sortByTimestamp l).Perm l :=
  ⟨List.sorted_insertionSort tsLE l, List.perm_insertionSort tsLE l⟩

def c1Session : ChatSessionT := { id := "sess1", title := "t" }

/-- C1 counterexample: sending the same record twice through
`sendMessage` does not leave the transcript of a single send — each append
is a plain list extension with no deduplication by id, so the entry grows
again. -/
theorem sendMessage_double_append_counterexample :
    (sendMessage (some c1Session) "hi"
        ((sendMessage (some c1Session) "hi" [] (.ok "reply")).messages)
        (.ok "reply")).messages
      ≠ (sendMessage (some c1Session) "hi" [] (.ok "reply")).messages := by
  decide

/-- C1 amended: the append the code performs is plain concatenation, so a
repeated `append(s, r)` appends a second copy of the user/bot pair instead
of being a no-op — append is not idempotent. -/
theorem sendMessage_append_duplicates (sess : ChatSessionT) (m reply : String)
    (prev : List Message) (hid : sess.id ≠ "") (hm : jsTrim m ≠ "") (hr : reply ≠ "") :
    (sendMessage (some sess) m ((sendMessage (some sess) m prev (.ok reply)).messages)
        (.ok reply)).messages
      = (sendMessage (some sess) m prev (.ok reply)).messages
        ++ [{ type := "user", content := m, timestamp := none, sessionId := none },
            { type := "bot", content := reply, timestamp := none, sessionId := none }] := by
  simp [sendMessage, hid, hm, hr]

theorem sendMessage_append_duplicates_witness :
    (c1Session.id ≠ "" ∧ jsTrim "hi" ≠ "" ∧ "reply" ≠ "")
    ∧ (sendMessage (some c1Session) "hi"
        ((sendMessage (some c1Session) "hi" [] (.ok "reply")).messages)
        (.ok "reply")).messages
      = (sendMessage (some c1Session) "hi" [] (.ok "reply")).messages
        ++ [{ type := "user", content := "hi", timestamp := none, sessionId := none },
            { type := "bot", content := "reply", timestamp := none, sessionId := none }] :=
  ⟨⟨by decide, by decide, by decide⟩,
    sendMessage_append_duplicates c1Session "hi" "reply" []
      (by decide) (by decide) (by decide)⟩

def c4State : AppStateV1 :=
  { chatHistory := [w3Record], videoHistory := [], chats := [],
    error := none, currentChatId := none }

/-- C4 counterexample: the legacy `fetchHistories` does not leave state
unchanged on a failed fetch — its `catch` block resets `chatHistory`,
`videoHistory` and `chats` to empty, so a pre-existing non-empty history
is emptied. -/
theorem fetchHistoriesV1_failure_clears_state_counterexample :
    fetchHistoriesV1 c4State (.error ()) ≠ c4State
    ∧ (fetchHistoriesV1 c4State (.error ())).chatHistory = [] := by
  constructor
  · decide
  · decide

/-- C4 amended: a failed fetch always surfaces an error message; in the
session-cache `fetchHistories` (on an actual cache miss) and in
`fetchChatHistory` the remaining state — cache entries included — is left
unchanged, but the legacy `fetchHistories` additionally clears
`chatHistory`, `videoHistory` and `chats` to empty, so on that path a
failure is distinguishable from empty history only by the error field. -/
theorem failed_fetch_error_paths (st : AppState) (stv : AppStateV1) (sid cid : String)
    (msgs : List Message) (perr : Option String)
    (h1 : lookupEntry st.sessionCache sid = none) (h2 : sid ≠ "") (h3 : cid ≠ "") :
    fetchHistories st (some sid) (.error ())
        = ({ st with error := some "Failed to load chat history" }, some (some sid))
    ∧ fetchChatHistory (some cid) msgs perr (.error ())
        = (msgs, some "Could not load chat history. Please try again later.", true)
    ∧ fetchHistoriesV1 stv (.error ())
        = { stv with
            error := some "Failed to fetch history data"
            chatHistory := []
            videoHistory := []
            chats := [] } := by
  refine ⟨?_, ?_, rfl⟩
  · simp only [fetchHistories, if_neg h2, h1, fetchPath]
  · simp only [fetchChatHistory, if_neg h3]

def c4State2 : AppState :=
  { chatHistory := [], videoHistory := [], chats := [],
    sessionCache := [("s", [w3Record])], error := none, currentChatId := none }

theorem failed_fetch_error_paths_witness :
    (lookupEntry c4State2.sessionCache "t" = none ∧ "t" ≠ "" ∧ "c1" ≠ "")
    ∧ (fetchHistories c4State2 (some "t") (.error ())
        = ({ c4State2 with error := some "Failed to load chat history" }, some (some "t"))
      ∧ fetchChatHistory (some "c1") [] none (.error ())
        = ([], some "Could not load chat history. Please try again later.", true)
      ∧ fetchHistoriesV1 c4State (.error ())
        = { c4State with
            error := some "Failed to fetch history data"
            chatHistory := []
            videoHistory := []
            chats := [] }) :=
  ⟨⟨by decide, by decide, by decide⟩,
    failed_fetch_error_paths c4State2 c4State "t" "c1" [] none
      (by decide) (by decide) (by decide)⟩

def c6Msgs : List Message :=
  [{ type := "user", content := "hi", timestamp := none, sessionId := none },
   { type := "bot", content := "reply", timestamp := none, sessionId := none }]

/-- C6 counterexample: after `handleMessageSent` appends the just-sent
messages for the chat bound to cached session `"s"`, the history read it
performs returns the untouched cache entry `[w3Record]` — no record with
the appended content `"hi"` is in the result. -/
theorem message_sent_not_in_next_read_counterexample :
    (handleMessageSent w3State c6Msgs "c1" (.ok [])).1.chatHistory = [w3Record]
    ∧ ((handleMessageSent w3State c6Msgs "c1" (.ok [])).1.chatHistory.all
        (fun r => r.message != "hi")) = true := by
  constructor
  · decide
  · decide

/-- C6 amended: `handleMessageSent` writes the appended messages only into
the `chats` entry; the session cache is not updated, so the history read
it triggers (and any later cached read) serves the pre-append cache entry,
which does not contain the new records. -/
theorem handleMessageSent_serves_stale_cache (st : AppState) (msgs : List Message)
    (chatId : String) (chat : Chat) (sid : String) (cached : List ChatHistoryRecord)
    (resp : Except Unit (List ChatHistoryRecord))
    (hfind : st.chats.find? (fun c => c.id == chatId) = some chat)
    (hs : chat.session_id = some sid) (h0 : sid ≠ "")
    (hc : lookupEntry st.sessionCache sid = some cached) :
    (handleMessageSent st msgs chatId resp).1.chatHistory = cached
    ∧ (handleMessageSent st msgs chatId resp).1.sessionCache = st.sessionCache
    ∧ (handleMessageSent st msgs chatId resp).1.chats
        = st.chats.map (updateChatEntry msgs chatId)
    ∧ (handleMessageSent st msgs chatId resp).2 = none := by
  simp [handleMessageSent, hfind, hs, fetchHistories, if_neg h0, hc]

theorem handleMessageSent_serves_stale_cache_witness :
    (w3State.chats.find? (fun c => c.id == "c1") = some w3Chat
      ∧ w3Chat.session_id = some "s" ∧ "s" ≠ ""
      ∧ lookupEntry w3State.sessionCache "s" = some [w3Record])
    ∧ ((handleMessageSent w3State c6Msgs "c1" (.error ())).1.chatHistory = [w3Record]
      ∧ (handleMessageSent w3State c6Msgs "c1" (.error ())).1.sessionCache
          = w3State.sessionCache
      ∧ (handleMessageSent w3State c6Msgs "c1" (.error ())).1.chats
          = w3State.chats.map (updateChatEntry c6Msgs "c1")
      ∧ (handleMessageSent w3State c6Msgs "c1" (.error ())).2 = none) :=
  ⟨⟨by decide, by decide, by decide, by decide⟩,
    handleMessageSent_serves_stale_cache w3State c6Msgs "c1" w3Chat "s" [w3Record]
      (.error ()) (by decide) (by decide) (by decide) (by decide)⟩

/-- C7 counterexample: `ChatContext.sendMessage` with no current session
does not send and does not create a session — it fails with
`'No active chat session'` and leaves the transcript untouched. -/
theorem sendMessage_no_session_fails_counterexample :
    (sendMessage none "hello" [] (.ok "reply")).didSend = false
    ∧ (sendMessage none "hello" [] (.ok "reply")).error = some "No active chat session"
    ∧ (sendMessage none "hello" [] (.ok "reply")).messages = [] := by
  refine ⟨rfl, rfl, rfl⟩

/-- C7 amended: with no session selected, `ChatContext.sendMessage`
rejects the call outright (error set, nothing posted), while the other
send path, `ChatContainer.handleSubmit`, does post — but with no
`session_id` field at all, leaving any session creation entirely to the
server. -/
theorem send_paths_without_session (m : String) (prev : List Message)
    (prevErr : Option String) (files : Nat) (loading : Bool)
    (resp : Except Unit String)
    (hguard : ((jsTrim m == "" && files == 0) || loading) = false) :
    (sendMessage none m prev resp).didSend = false
    ∧ (sendMessage none m prev resp).error = some "No active chat session"
    ∧ (sendMessage none m prev resp).messages = prev
    ∧ (handleSubmit m files loading none prev prevErr resp).didSend = true
    ∧ (handleSubmit m files loading none prev prevErr resp).sentSessionId = none := by
  refine ⟨rfl, rfl, rfl, ?_, ?_⟩
  · simp only [handleSubmit, hguard]
    cases resp <;> rfl
  · simp only [handleSubmit, hguard]
    cases resp <;> rfl

theorem send_paths_without_session_witness :
    ((jsTrim "hola" == "" && (0 : Nat) == 0) || false) = false
    ∧ ((sendMessage none "hola" [] (.ok "r")).didSend = false
      ∧ (sendMessage none "hola" [] (.ok "r")).error = some "No active chat session"
      ∧ (sendMessage none "hola" [] (.ok "r")).messages = []
      ∧ (handleSubmit "hola" 0 false none [] none (.ok "r")).didSend = true
      ∧ (handleSubmit "hola" 0 false none [] none (.ok "r")).sentSessionId = none) :=
  ⟨by decide, send_paths_without_session "hola" [] none 0 false (.ok "r") (by decide)⟩

/-- C8: the SQL write path rejects an empty chat message and an empty
upload file name through the CHECK constraints, so the insert fails and no
row is persisted. -/
theorem empty_write_rejected (tc : List ChatHistoryRecord) (tv : List VideoRow)
    (sid uid ct : String) (ts : Nat) (msg : String)
    (uid2 fname ana : String) (dur fmt : Option String) (ts2 : Nat)
    (hm : msg.length = 0) (hf : fname.length = 0) :
    insert_user_chat_history tc sid uid msg ct ts
        = .error "ValidationError: new row violates check constraint LENGTH(message) > 0"
    ∧ insert_video_analysis_output tv uid2 fname ana dur fmt ts2
        = .error "ValidationError: new row violates check constraint LENGTH(upload_file_name) > 0" := by
  constructor
  · simp [insert_user_chat_history, hm]
  · simp [insert_video_analysis_output, hf]

theorem empty_write_rejected_witness :
    (("" : String).length = 0 ∧ ("" : String).length = 0)
    ∧ (insert_user_chat_history [] "s" "u" "" "user" 5
        = .error "ValidationError: new row violates check constraint LENGTH(message) > 0"
      ∧ insert_video_analysis_output [] "u" "" "analysis" none none 5
        = .error "ValidationError: new row violates check constraint LENGTH(upload_file_name) > 0") :=
  ⟨⟨rfl, rfl⟩, empty_write_rejected [] [] "s" "u" "user" 5 "" "u" "" "analysis" none none 5 rfl rfl⟩

/-- C9: when the send request fails, `handleSubmit` still mutates the
visible transcript — it appends exactly two entries, the user's message
and an error entry rendered as a message, even though nothing was
persisted. -/
theorem failed_submit_appends_two_entries (m : String) (files : Nat) (loading : Bool)
    (chatId : Option String) (prev : List Message) (prevErr : Option String)
    (hguard : ((jsTrim m == "" && files == 0) || loading) = false) :
    (handleSubmit m files loading chatId prev prevErr (.error ())).messages
      = prev ++
        [{ type := "user", content := jsTrim m, timestamp := none, sessionId := none },
         { type := "error", content := "Failed to send message. Please try again.",
           timestamp := none, sessionId := none }]
    ∧ (handleSubmit m files loading chatId prev prevErr (.error ())).messages.length
      = prev.length + 2
    ∧ (handleSubmit m files loading chatId prev prevErr (.error ())).didSend = true := by
  refine ⟨?_, ?_, ?_⟩ <;> simp [handleSubmit, hguard]

theorem failed_submit_appends_two_entries_witness :
    ((jsTrim "hey" == "" && (0 : Nat) == 0) || false) = false
    ∧ ((handleSubmit "hey" 0 false (some "c1") [] none (.error ())).messages
      = [] ++
        [{ type := "user", content := jsTrim "hey", timestamp := none, sessionId := none },
         { type := "error", content := "Failed to send message. Please try again.",
           timestamp := none, sessionId := none }]
      ∧ (handleSubmit "hey" 0 false (some "c1") [] none (.error ())).messages.length
        = List.length ([] : List Message) + 2
      ∧ (handleSubmit "hey" 0 false (some "c1") [] none (.error ())).didSend = true) :=
  ⟨by decide, failed_submit_appends_two_entries "hey" 0 false (some "c1") [] none (by decide)⟩
